import Mathlib

/-!
Shallow embedding of the LoRA parameter-efficient fine-tuning code
(nemo/collections/llm/peft/lora.py) and of the FLOPs measurement callback
(nemo/lightning/pytorch/callbacks/flops_callback.py) of the NeMo repository.

Conventions of the embedding:
* tensor values are rationals; a tensor of shape (r, c) is a Mathlib matrix;
* a torch parameter is its value together with its requires_grad flag;
* random weight initialisation is modelled by passing the drawn values as an
  explicit argument;
* stochastic dropout is modelled by passing the Bernoulli keep mask as an
  explicit argument (with keep probability 1 - p, so for p = 0 the mask is
  all-true with probability one);
* Python exceptions are the error case of an Except value.
-/

namespace Nemo

/-- A torch tensor registered as a parameter: its value together with the
requires_grad flag. -/
structure Param (α : Type) where
  val : α
  requires_grad : Bool

/-- A rational matrix of shape (r, c) (torch shape convention: rows first). -/
abbrev QMat (r c : ℕ) : Type := Matrix (Fin r) (Fin c) ℚ

/-- A rational vector of length n. -/
abbrev QVec (n : ℕ) : Type := Fin n → ℚ

/-- Embedding of torch.nn.Linear: a weight of shape (out_features, in_features)
and an optional bias, with forward x = x @ weight.T + bias. -/
structure Linear (nIn nOut : ℕ) where
  weight : Param (QMat nOut nIn)
  bias : Option (Param (QVec nOut))

/-- Forward pass of torch.nn.Linear on a single input vector. -/
def Linear.forward {nIn nOut : ℕ} (l : Linear nIn nOut) (x : QVec nIn) : QVec nOut :=
  l.weight.val.mulVec x +
    (match l.bias with
     | some b => b.val
     | none => 0)

/-- Embedding of torch.nn.Dropout in training mode: the Bernoulli keep mask is
an explicit argument; kept entries are scaled by 1/(1-p), dropped entries are
zeroed.  With dropout probability p = 0 every entry is kept, so the mask is
all-true. -/
def dropoutRun (p : ℚ) {k : ℕ} (keep : Fin k → Bool) (v : QVec k) : QVec k :=
  fun i => if keep i then v i * (1 - p)⁻¹ else 0

/-- The two dropout positions accepted by the adapters ('pre' and 'post'). -/
inductive DropPos where
  | pre
  | post
deriving DecidableEq

/-- Embedding of the state of LinearAdapter (lora.py, lines 56-96): the frozen
wrapped nn.Linear, the scale alpha/dim, the two low-rank parameters and the
dropout configuration. -/
structure LinearAdapter (nIn nOut d : ℕ) where
  orig_linear : Linear nIn nOut
  scale : ℚ
  lora_a : Param (QMat nIn d)
  lora_b : Param (QMat d nOut)
  dropout_p : ℚ
  dropout_position : DropPos

/-- Embedding of LinearAdapter.__init__ (lora.py, lines 57-85): freezes the
wrapped layer's weight and bias, sets scale = alpha / dim, creates lora_a as a
fresh trainable parameter filled by a random init (uniform for 'xavier',
kaiming otherwise; either way the drawn values are the explicit argument
aDraw) and lora_b as a trainable all-zeros parameter. -/
def LinearAdapter.init {nIn nOut : ℕ} (orig : Linear nIn nOut) (dim : ℕ) (alpha : ℚ)
    (dropout : ℚ) (dropout_position : DropPos) (lora_A_init_method : String)
    (aDraw : QMat nIn dim) : LinearAdapter nIn nOut dim :=
  let _ := lora_A_init_method
  { orig_linear :=
      { weight := { val := orig.weight.val, requires_grad := false }
        bias := orig.bias.map fun b => { val := b.val, requires_grad := false } }
    scale := alpha / (dim : ℚ)
    lora_a := { val := aDraw, requires_grad := true }
    lora_b := { val := 0, requires_grad := true }
    dropout_p := dropout
    dropout_position := dropout_position }

/-- Embedding of LinearAdapter.forward (lora.py, lines 87-96), with the dropout
keep masks for the 'pre' position (over the input) and the 'post' position
(over the low-rank output) passed explicitly. -/
def LinearAdapter.forward {nIn nOut d : ℕ} (la : LinearAdapter nIn nOut d)
    (keepPre : Fin nIn → Bool) (keepPost : Fin nOut → Bool) (x : QVec nIn) : QVec nOut :=
  let res := la.orig_linear.forward x
  let x1 := if la.dropout_position = DropPos.pre then dropoutRun la.dropout_p keepPre x else x
  let lora_res1 := Matrix.vecMul x1 la.lora_a.val
  let lora_res2 := Matrix.vecMul lora_res1 la.lora_b.val
  let lora_res3 := fun j => lora_res2 j * la.scale
  let lora_res4 :=
    if la.dropout_position = DropPos.post then dropoutRun la.dropout_p keepPost lora_res3
    else lora_res3
  res + lora_res4

/-- Embedding of the state of LinearAdapterForQKV (lora.py, lines 99-136): the
frozen wrapped nn.Linear and three pairs of bias-free nn.Linear low-rank
projections, the out-projections having out_features // 3 outputs. -/
structure LinearAdapterForQKV (nIn nOut d : ℕ) where
  orig_linear : Linear nIn nOut
  scale : ℚ
  lora_a : Fin 3 → Linear nIn d
  lora_b : Fin 3 → Linear d (nOut / 3)
  dropout_p : ℚ
  dropout_position : DropPos

/-- Embedding of LinearAdapterForQKV.__init__ (lora.py, lines 100-136): freezes
the wrapped layer, sets scale = alpha / dim, and creates three bias-free
nn.Linear modules for lora_a (weights re-initialised by uniform or kaiming
init) and three for lora_b (weights keeping the nn.Linear default random
init); all drawn weight values are explicit arguments. -/
def LinearAdapterForQKV.init {nIn nOut : ℕ} (orig : Linear nIn nOut) (dim : ℕ) (alpha : ℚ)
    (dropout : ℚ) (dropout_position : DropPos) (lora_A_init_method : String)
    (aDraws : Fin 3 → QMat dim nIn) (bDraws : Fin 3 → QMat (nOut / 3) dim) :
    LinearAdapterForQKV nIn nOut dim :=
  let _ := lora_A_init_method
  { orig_linear :=
      { weight := { val := orig.weight.val, requires_grad := false }
        bias := orig.bias.map fun b => { val := b.val, requires_grad := false } }
    scale := alpha / (dim : ℚ)
    lora_a := fun t => { weight := { val := aDraws t, requires_grad := true }, bias := none }
    lora_b := fun t => { weight := { val := bDraws t, requires_grad := true }, bias := none }
    dropout_p := dropout
    dropout_position := dropout_position }

/-- Embedding of AdapterParallelAdd (lora.py, lines 42-53) over an abstract
wrapped layer.  Modelled from the spec: AdapterWrapper.base_linear_forward and
ParallelLinearAdapter.forward live outside src/, so they are abstract function
fields giving the wrapped layer's forward result
(linear_output, bias, layernorm_output) and the adapter's output; .contiguous()
is the identity on values. -/
structure AdapterParallelAdd (nIn nOut : ℕ) where
  base_linear_forward : QVec nIn → QVec nOut × QVec nOut × QVec nIn
  adapter : QVec nIn → QVec nOut

/-- Embedding of AdapterParallelAdd.forward (lora.py, lines 50-53): adds the
adapter output on the layernorm output to the linear output and passes the
bias through. -/
def AdapterParallelAdd.forward {nIn nOut : ℕ} (w : AdapterParallelAdd nIn nOut)
    (x : QVec nIn) : QVec nOut × QVec nOut :=
  let r := w.base_linear_forward x
  (r.1 + w.adapter r.2.2, r.2.1)

/-! ### A small anchored regex matcher

The two regular expressions used by lora.py are built from literal characters,
the any-character class (an unescaped dot, which in Python matches every
character except a newline), bracketed character classes, and the Kleene star.
They are embedded as lists of tokens; matching is anchored at both ends, which
is exactly the combination re.match + a trailing dollar gives, up to Python's
rule that the trailing dollar also accepts the position just before a final
newline. -/

/-- A single-character pattern: the regex any-character dot (everything except
a newline), a literal character, or a bracketed character class. -/
inductive CharPat where
  | dot
  | lit (c : Char)
  | cls (cs : List Char)
deriving DecidableEq

/-- Whether one character matches a single-character pattern. -/
def cmatch : CharPat → Char → Bool
  | CharPat.dot, c => c != '\n'
  | CharPat.lit a, c => a == c
  | CharPat.cls l, c => l.contains c

/-- A regex token: a single occurrence of a character pattern, or its Kleene
star. -/
inductive RTok where
  | one (p : CharPat)
  | star (p : CharPat)
deriving DecidableEq

/-- The suffixes of s reachable by removing a prefix of characters that each
match p: the ways a starred character pattern can consume input. -/
def starTails (p : CharPat) : List Char → List (List Char)
  | [] => [[]]
  | c :: cs => (c :: cs) :: (if cmatch p c then starTails p cs else [])

/-- Anchored matching of a token list against a whole character list; a starred
token tries every suffix it can reach. -/
def tmatch : List RTok → List Char → Bool
  | [], s => s.isEmpty
  | RTok.one _ :: _, [] => false
  | RTok.one p :: ts, c :: cs => cmatch p c && tmatch ts cs
  | RTok.star p :: ts, s => (starTails p s).any fun t => tmatch ts t

/-- Matching of a start-anchored Python regex ending in a dollar against a
whole string, as re.match does it: the dollar accepts the end of the string or
the position just before a trailing newline. -/
def pyMatchDollar (ts : List RTok) (s : List Char) : Bool :=
  tmatch ts s || (if s.getLast? = some '\n' then tmatch ts s.dropLast else false)

/-- Literal tokens for the characters of a string. -/
def litToks (s : String) : List RTok := s.data.map fun c => RTok.one (CharPat.lit c)

/-- The ten decimal digit characters (the class [0-9]). -/
def digitChars : List Char := ['0', '1', '2', '3', '4', '5', '6', '7', '8', '9']

/-- Token form of the Python pattern
'.*mlp\\.experts\\.local_experts.[0-9]+\\.linear_fc[1-2]dollar' used by
is_expert_linear (lora.py, line 157): a leading any-string, the escaped-dot
literal 'mlp.experts.local_experts', one unescaped (any-character) dot, one or
more digits, a literal '.linear_fc' and a final digit 1 or 2. -/
def expertToks : List RTok :=
  RTok.star CharPat.dot ::
    (litToks "mlp.experts.local_experts" ++
      [RTok.one CharPat.dot, RTok.one (CharPat.cls digitChars),
        RTok.star (CharPat.cls digitChars)] ++
      litToks ".linear_fc" ++ [RTok.one (CharPat.cls ['1', '2'])])

/-- Embedding of is_expert_linear (lora.py, lines 156-157). -/
def is_expert_linear (fqn : String) : Bool := pyMatchDollar expertToks fqn.data

/-- Token form of pattern.replace("*", "(.*)") read as a regex over its
characters (lora.py, lines 228-233): a '*' becomes any-string, a '.' is the
regex any-character, every other character is a literal (regex metacharacters
other than '.' and '*' do not occur in module-name patterns and are outside
the model). -/
def wildcardToks (pattern : String) : List RTok :=
  pattern.data.map fun c =>
    if c = '*' then RTok.star CharPat.dot
    else if c = '.' then RTok.one CharPat.dot
    else RTok.one (CharPat.lit c)

/-- Embedding of wildcard_match (lora.py, lines 228-233); a None key gives the
falsy result None in Python, modelled as false. -/
def wildcard_match (pattern : String) (key : Option String) : Bool :=
  match key with
  | none => false
  | some k => pyMatchDollar (wildcardToks pattern) k.data

/-! ### LoRA.transform -/

/-- Embedding of full_name (lora.py, line 235):
f-string prefix.name when the prefix is truthy (not None and not empty),
otherwise name; Python renders a None name as the string "None". -/
def full_name (name pfx : Option String) : Option String :=
  match pfx with
  | some p =>
      if p = "" then name
      else some (p ++ "." ++ (match name with | some s => s | none => "None"))
  | none => name

/-- Embedding of the targeting test of LoRA.transform (lora.py, line 236):
name is listed in target_modules, or some wildcard pattern matches the full
dotted name. -/
def isTargeted (target_modules : List String) (name pfx : Option String) : Bool :=
  (match name with
   | some s => target_modules.contains s
   | none => false) ||
    target_modules.any fun pattern => wildcard_match pattern (full_name name pfx)

/-- Embedding of the LoRA dataclass fields (lora.py, lines 203-212). -/
structure LoRA where
  target_modules : List String
  dim : ℕ
  alpha : ℚ
  dropout : ℚ
  dropout_position : DropPos
  lora_A_init_method : String
  lora_B_init_method : String
  a2a_experimental : Bool

/-- State of a TEColumnParallelLinear or TELayerNormColumnParallelLinear
module, with the flags LoRA.transform reads or mutates. -/
structure TEColState where
  in_features : ℕ
  out_features : ℕ
  return_layernorm_output : Bool
  sequence_parallel : Bool
  ub_overlap_ag : Bool
  return_layernorm_output_gathered : Bool
deriving DecidableEq

/-- State of a TERowParallelLinear module. -/
structure TERowState where
  in_features : ℕ
  out_features : ℕ
deriving DecidableEq

/-- State of a megatron ColumnParallelLinear or RowParallelLinear module. -/
structure MCoreParallelState where
  input_size : ℕ
  output_size : ℕ
deriving DecidableEq

/-- Modelled from the spec: ParallelLinearAdapter (a megatron adapter class
outside src/) is represented by the constructor arguments LoRA.transform
passes to it (lora.py, lines 274-291); activation, norm_position and norm_type
are the fixed values 'identity', None, None. -/
structure ParallelLinearAdapterArgs where
  in_features : ℕ
  out_features : ℕ
  dim : ℕ
  column_init_method : String
  row_init_method : String
  gather_output : Bool
  input_is_parallel : Bool
  dropout : ℚ
  dropout_position : DropPos
  alpha : ℚ
  is_expert : Bool
  a2a_experimental : Bool
deriving DecidableEq

/-- The module universe LoRA.transform dispatches on: the six recognized linear
layer types, the adapter modules it can produce, and a constructor for every
other module type. -/
inductive Module where
  | teColumnParallelLinear (s : TEColState)
  | teLayerNormColumnParallelLinear (s : TEColState)
  | teRowParallelLinear (s : TERowState)
  | columnParallelLinear (s : MCoreParallelState)
  | rowParallelLinear (s : MCoreParallelState)
  | linear (nIn nOut : ℕ) (l : Linear nIn nOut)
  | linearAdapter (nIn nOut d : ℕ) (a : LinearAdapter nIn nOut d)
  | linearAdapterQKV (nIn nOut d : ℕ) (a : LinearAdapterForQKV nIn nOut d)
  | adapterParallelAdd (base : Module) (args : ParallelLinearAdapterArgs)
  | other (tag : ℕ)

/-- The ParallelLinearAdapter constructor call of LoRA.transform (lora.py,
lines 274-291), keeping the arguments that vary. -/
def mkAdapterArgs (cfg : LoRA) (inF outF : ℕ) (inputIsParallel : Bool)
    (fullNameStr : String) : ParallelLinearAdapterArgs :=
  { in_features := inF
    out_features := outF
    dim := cfg.dim
    column_init_method := cfg.lora_A_init_method
    row_init_method := cfg.lora_B_init_method
    gather_output := false
    input_is_parallel := inputIsParallel
    dropout := cfg.dropout
    dropout_position := cfg.dropout_position
    alpha := cfg.alpha
    is_expert := is_expert_linear fullNameStr
    a2a_experimental := cfg.a2a_experimental }

/-- Embedding of LoRA.transform (lora.py, lines 214-293).  The environment
enters as explicit arguments: tpSize is
parallel_state.get_tensor_model_parallel_world_size() and draw gives the
random initial values of freshly created adapter weights.  Transformer Engine
is taken as available (HAVE_TE); a raised NotImplementedError is the error
case.  When the module is targeted, full_name is a string (a None name can
only be targeted through a truthy prefix), so is_expert_linear and the qkv
test read its string value. -/
def LoRA.transform (cfg : LoRA) (tpSize : ℕ) (draw : ℕ → ℕ → ℕ → ℚ)
    (m : Module) (name pfx : Option String) : Except String Module :=
  let fnStr := (full_name name pfx).getD ""
  if isTargeted cfg.target_modules name pfx then
    match m with
    | Module.teColumnParallelLinear s =>
        let s2 :=
          { s with
            return_layernorm_output := true
            return_layernorm_output_gathered :=
              if s.sequence_parallel && !s.ub_overlap_ag then true
              else s.return_layernorm_output_gathered }
        Except.ok (Module.adapterParallelAdd (Module.teColumnParallelLinear s2)
          (mkAdapterArgs cfg s.in_features (s.out_features * tpSize) false fnStr))
    | Module.teLayerNormColumnParallelLinear s =>
        let s2 :=
          { s with
            return_layernorm_output := true
            return_layernorm_output_gathered :=
              if s.sequence_parallel && !s.ub_overlap_ag then true
              else s.return_layernorm_output_gathered }
        Except.ok (Module.adapterParallelAdd (Module.teLayerNormColumnParallelLinear s2)
          (mkAdapterArgs cfg s.in_features (s.out_features * tpSize) false fnStr))
    | Module.teRowParallelLinear s =>
        Except.ok (Module.adapterParallelAdd (Module.teRowParallelLinear s)
          (mkAdapterArgs cfg (s.in_features * tpSize) s.out_features true fnStr))
    | Module.columnParallelLinear s =>
        Except.ok (Module.adapterParallelAdd (Module.columnParallelLinear s)
          (mkAdapterArgs cfg s.input_size s.output_size false fnStr))
    | Module.rowParallelLinear s =>
        Except.ok (Module.adapterParallelAdd (Module.rowParallelLinear s)
          (mkAdapterArgs cfg s.input_size s.output_size true fnStr))
    | Module.linear nIn nOut l =>
        if "qkv".data <:+: fnStr.toLower.data then
          Except.ok (Module.linearAdapterQKV nIn nOut cfg.dim
            (LinearAdapterForQKV.init l cfg.dim cfg.alpha cfg.dropout DropPos.post
              cfg.lora_A_init_method
              (fun t => Matrix.of fun i j => draw (1 + (t : ℕ)) i j)
              (fun t => Matrix.of fun i j => draw (4 + (t : ℕ)) i j)))
        else
          Except.ok (Module.linearAdapter nIn nOut cfg.dim
            (LinearAdapter.init l cfg.dim cfg.alpha cfg.dropout DropPos.post
              cfg.lora_A_init_method (Matrix.of fun i j => draw 0 i j)))
    | _ => Except.error "NotImplementedError: Layer type is unrecognized for LoRA"
  else Except.ok m

/-! ### LoRAMerge.transform -/

namespace LoRAMerge

/-- A wrapped linear layer as the merge sees it: only its weight matrix, of
shape (out_features, in_features). -/
structure WrappedLinear (nIn nOut : ℕ) where
  weight : QMat nOut nIn

/-- Modelled from the spec: the fields of a trained ParallelLinearAdapter
(outside src/) that LoRAMerge.transform reads: alpha, dim, and the in- and
out-projection linear layers. -/
structure PLAState (nIn nOut d : ℕ) where
  alpha : ℚ
  dim : ℕ
  linear_in : WrappedLinear nIn d
  linear_out : WrappedLinear d nOut

/-- The pieces of an AdapterParallelAdd module that LoRAMerge.transform reads
and writes: the wrapped layer and the adapter. -/
structure APAddState (nIn nOut d : ℕ) where
  to_wrap : WrappedLinear nIn nOut
  adapter : PLAState nIn nOut d

/-- The module universe LoRAMerge.transform dispatches on: AdapterParallelAdd
modules and everything else. -/
inductive MModule where
  | adapterParallelAdd (nIn nOut d : ℕ) (s : APAddState nIn nOut d)
  | nonAdapter (tag : ℕ)

/-- Whether a module is an AdapterParallelAdd. -/
def isAdapterParallelAdd : MModule → Bool
  | MModule.adapterParallelAdd _ _ _ _ => true
  | MModule.nonAdapter _ => false

/-- Embedding of LoRAMerge.transform (lora.py, lines 307-333): a module that
is not an AdapterParallelAdd is returned unchanged; otherwise the wrapped
layer's weight is replaced by
base_weight + alpha / dim * linear_out.weight @ linear_in.weight (the Python
expression associates as ((alpha / dim) * B) @ A). -/
def transform : MModule → MModule
  | MModule.nonAdapter t => MModule.nonAdapter t
  | MModule.adapterParallelAdd nIn nOut d s =>
      let base_weight := s.to_wrap.weight
      let lora_weight :=
        ((s.adapter.alpha / (s.adapter.dim : ℚ)) • s.adapter.linear_out.weight) *
          s.adapter.linear_in.weight
      let merged_weight := base_weight + lora_weight
      MModule.adapterParallelAdd nIn nOut d
        { to_wrap := { weight := merged_weight }, adapter := s.adapter }

end LoRAMerge

/-! ### FLOPs measurement callback -/

/-- Embedding of the state of FLOPsMeasurementCallback (flops_callback.py,
lines 85-111): the hyperparameters read from the model and data configs, the
(already lowercased) model name, and two pieces of environment: vocab_map
models LLM_VOCAB_SIZE_MAP (whose numeric values live outside src/) and
num_devices models torch.distributed.get_world_size(). -/
structure FLOPsMeasurementCallback where
  gbs : ℚ
  enc_seq_len : ℚ
  hs : ℚ
  layers : ℚ
  ffn_hs : ℚ
  attention_heads : ℚ
  query_groups : ℚ
  moe_router_topk : ℚ
  model : Option String
  vocab_map : String → ℚ
  num_devices : ℚ

namespace FLOPsMeasurementCallback

/-- Embedding of FLOPsMeasurementCallback.__init__ (flops_callback.py, lines
85-111): query_groups falls back to attention_heads when None, and the model
name is lowercased when present. -/
def init (model_name : Option String) (gbs enc_seq_len hs layers ffn_hs
    attention_heads : ℚ) (query_groups : Option ℚ) (moe_router_topk : ℚ)
    (vocab_map : String → ℚ) (num_devices : ℚ) : FLOPsMeasurementCallback :=
  { gbs := gbs
    enc_seq_len := enc_seq_len
    hs := hs
    layers := layers
    ffn_hs := ffn_hs
    attention_heads := attention_heads
    query_groups := query_groups.getD attention_heads
    moe_router_topk := moe_router_topk
    model := model_name.map String.toLower
    vocab_map := vocab_map
    num_devices := num_devices }

/-- Embedding of FLOPsMeasurementCallback._gpt3 (flops_callback.py, lines
189-197). -/
def gpt3 (c : FLOPsMeasurementCallback) : ℚ :=
  (24 * c.gbs * c.enc_seq_len * c.hs * c.hs
      + 4 * c.gbs * c.enc_seq_len * c.enc_seq_len * c.hs) * (3 * c.layers)
    + (6 * c.gbs * c.enc_seq_len * c.hs * c.vocab_map "gpt3")

/-- Embedding of FLOPsMeasurementCallback._llama2 (flops_callback.py, lines
199-216). -/
def llama2 (c : FLOPsMeasurementCallback) : ℚ :=
  c.gbs * c.enc_seq_len * c.layers * c.hs * c.hs *
    (12 + (12 * c.query_groups / c.attention_heads) + (18 * c.ffn_hs / c.hs)
      + (12 * c.enc_seq_len / c.hs)
      + (6 * c.vocab_map "llama2" / (c.layers * c.hs)))

/-- Embedding of FLOPsMeasurementCallback._llama3 (flops_callback.py, lines
218-235). -/
def llama3 (c : FLOPsMeasurementCallback) : ℚ :=
  c.gbs * c.enc_seq_len * c.layers * c.hs * c.hs *
    (12 + (12 * c.query_groups / c.attention_heads) + (18 * c.ffn_hs / c.hs)
      + (12 * c.enc_seq_len / c.hs)
      + (6 * c.vocab_map "llama3" / (c.layers * c.hs)))

/-- Embedding of FLOPsMeasurementCallback._nemotron (flops_callback.py, lines
237-254). -/
def nemotron (c : FLOPsMeasurementCallback) : ℚ :=
  c.gbs * c.enc_seq_len * c.layers * c.hs * c.hs *
    (12 + (12 * c.query_groups / c.attention_heads) + (12 * c.ffn_hs / c.hs)
      + (12 * c.enc_seq_len / c.hs)
      + (6 * c.vocab_map "nemotron" / (c.layers * c.hs)))

/-- Embedding of FLOPsMeasurementCallback._mixtral (flops_callback.py, lines
256-273). -/
def mixtral (c : FLOPsMeasurementCallback) : ℚ :=
  c.gbs * c.enc_seq_len * c.layers * c.hs * c.hs *
    (12 + (12 * c.query_groups / c.attention_heads)
      + (18 * c.moe_router_topk * c.ffn_hs / c.hs)
      + (12 * c.enc_seq_len / c.hs)
      + (6 * c.vocab_map "mixtral" / (c.layers * c.hs)))

/-- Embedding of FLOPsMeasurementCallback._bert (flops_callback.py, lines
275-287). -/
def bert (c : FLOPsMeasurementCallback) : ℚ :=
  72 * c.gbs * c.layers * c.enc_seq_len * c.hs * c.hs *
    (1 + (c.enc_seq_len / (6 * c.hs))
      + (c.vocab_map "bert" / (12 * c.hs * c.layers)))

/-- The model_flops_map dictionary of eval_model_flops (flops_callback.py,
lines 167-174), in insertion order. -/
def model_flops_map (c : FLOPsMeasurementCallback) : List (String × ℚ) :=
  [("gpt3", c.gpt3), ("llama2", c.llama2), ("llama3", c.llama3),
    ("nemotron", c.nemotron), ("mixtral", c.mixtral), ("bert", c.bert)]

/-- The keys of model_flops_map, in insertion order. -/
def familyKeys : List String :=
  ["gpt3", "llama2", "llama3", "nemotron", "mixtral", "bert"]

/-- Embedding of FLOPsMeasurementCallback.eval_model_flops (flops_callback.py,
lines 162-187): the keys that occur as substrings of the model name are
collected in dictionary order and the name is replaced by the first of them if
any; a name (possibly None) that is then not a dictionary key raises KeyError,
otherwise the pair (total_flops, total_flops / num_devices) is returned. -/
def eval_model_flops (c : FLOPsMeasurementCallback) : Except String (ℚ × ℚ) :=
  let resolved : Option String :=
    match c.model with
    | none => none
    | some s =>
        let model_matches := familyKeys.filter fun k => decide (k.data <:+: s.data)
        some (model_matches.headD s)
  match resolved with
  | none =>
      Except.error "KeyError: Failed to extract valid model name from or missing FLOPs calculations"
  | some s =>
      match (model_flops_map c).lookup s with
      | none =>
          Except.error "KeyError: Failed to extract valid model name from or missing FLOPs calculations"
      | some total_flops => Except.ok (total_flops, total_flops / c.num_devices)

/-- The train_step_time argument of eval_tflops_per_sec_per_gpu: a list of step
times, or a bare scalar. -/
inductive StepTimeInput where
  | list (l : List ℚ)
  | scalar (x : ℚ)

/-- Arithmetic mean of a list of rationals (np.mean). -/
def listMean (l : List ℚ) : ℚ := l.sum / (l.length : ℚ)

/-- Embedding of FLOPsMeasurementCallback.eval_tflops_per_sec_per_gpu
(flops_callback.py, lines 142-160): a scalar argument is wrapped into a
one-element list, the mean is taken over the second half of the list (from
index len // 2 on), and flops_per_gpu / (1e12 * mean) is returned. -/
def eval_tflops_per_sec_per_gpu (c : FLOPsMeasurementCallback)
    (train_step_time : StepTimeInput) : Except String ℚ :=
  match eval_model_flops c with
  | Except.error e => Except.error e
  | Except.ok fl =>
      let l :=
        match train_step_time with
        | StepTimeInput.list l => l
        | StepTimeInput.scalar x => [x]
      let mean := listMean (l.drop (l.length / 2))
      Except.ok (fl.2 / ((1e12 : ℚ) * mean))

/-- The FLOPs formula that a family key dispatches to (the dictionary value,
with an irrelevant default for non-keys). -/
def familyFlops (c : FLOPsMeasurementCallback) (k : String) : ℚ :=
  ((model_flops_map c).lookup k).getD 0

/-- Whether a computation raised an exception. -/
def raisesError {ε α : Type} : Except ε α → Bool
  | Except.error _ => true
  | Except.ok _ => false

end FLOPsMeasurementCallback

/-- Specification-side definition for the llama refinement claim: the common
closed-form expression that the spec says both llama estimators evaluate, as a
function of the vocab-size constant looked up from LLM_VOCAB_SIZE_MAP. -/
def llamaSpecFormula (c : FLOPsMeasurementCallback) (vocab_size : ℚ) : ℚ :=
  c.gbs * c.enc_seq_len * c.layers * c.hs * c.hs *
    (12 + (12 * c.query_groups / c.attention_heads) + (18 * c.ffn_hs / c.hs)
      + (12 * c.enc_seq_len / c.hs) + (6 * vocab_size / (c.layers * c.hs)))

/-! ### Concrete sample inputs used by the witnesses -/

/-- Sample nn.Linear layer. -/
def linSample : Linear 1 1 :=
  { weight := { val := Matrix.of fun _ _ => 2, requires_grad := true }
    bias := some { val := fun _ => 1, requires_grad := true } }

/-- Sample LinearAdapter built over linSample with dropout probability 0. -/
def laSample : LinearAdapter 1 1 8 :=
  LinearAdapter.init linSample 8 32 0 DropPos.post "xavier" (Matrix.of fun _ _ => 1)

/-- Sample AdapterParallelAdd wrapper. -/
def apSample : AdapterParallelAdd 1 1 :=
  { base_linear_forward := fun x => (x, x, x), adapter := fun x => x }

/-- Sample merge-time AdapterParallelAdd state. -/
def apAddSample : LoRAMerge.APAddState 1 1 1 :=
  { to_wrap := { weight := Matrix.of fun _ _ => 5 }
    adapter :=
      { alpha := 32
        dim := 8
        linear_in := { weight := Matrix.of fun _ _ => 1 }
        linear_out := { weight := Matrix.of fun _ _ => 3 } } }

/-- Sample LoRA configuration (the source's default field values). -/
def loraSample : LoRA :=
  { target_modules := ["linear_qkv", "linear_proj", "linear_fc1", "linear_fc2"]
    dim := 32
    alpha := 32
    dropout := 0
    dropout_position := DropPos.post
    lora_A_init_method := "xavier"
    lora_B_init_method := "zero"
    a2a_experimental := false }

/-- Sample FLOPs callback state. -/
def flopsSample : FLOPsMeasurementCallback :=
  { gbs := 1
    enc_seq_len := 1
    hs := 1
    layers := 1
    ffn_hs := 1
    attention_heads := 1
    query_groups := 1
    moe_router_topk := 1
    model := some "train_gpt3_5b"
    vocab_map := fun _ => 1
    num_devices := 1 }

/-! ### Helper lemmas -/

/-- Dropout with probability 0 and the (almost surely all-true) keep mask is
the identity. -/
theorem dropoutRun_zero {k : ℕ} (keep : Fin k → Bool) (v : QVec k)
    (hk : ∀ i, keep i = true) : dropoutRun 0 keep v = v := by
  funext i
  simp [dropoutRun, hk i]

/-! ### Claim theorems -/

/-- C1: LoRA adapter injection adds a low-rank projection to the wrapped
linear layer's output.  For a LinearAdapter with dropout probability 0 (so the
keep masks are all-true) and scale alpha / dim, forward(x) is
orig_linear(x) + (alpha/dim) * ((x @ lora_a) @ lora_b); and
AdapterParallelAdd.forward(x) is the pair
(linear_output + adapter(layernorm_output), bias) where
(linear_output, bias, layernorm_output) is the wrapped layer's forward
result. -/
theorem C1_adapter_forward {nIn nOut d nI nO : ℕ}
    (la : LinearAdapter nIn nOut d) (alpha : ℚ) (dim : ℕ)
    (keepPre : Fin nIn → Bool) (keepPost : Fin nOut → Bool) (x : QVec nIn)
    (w : AdapterParallelAdd nI nO) (y : QVec nI)
    (hp : la.dropout_p = 0)
    (hscale : la.scale = alpha / (dim : ℚ))
    (hpre : ∀ i, keepPre i = true) (hpost : ∀ j, keepPost j = true) :
    la.forward keepPre keepPost x
        = la.orig_linear.forward x
          + (alpha / (dim : ℚ)) •
              Matrix.vecMul (Matrix.vecMul x la.lora_a.val) la.lora_b.val
      ∧ w.forward y
        = ((w.base_linear_forward y).1 + w.adapter (w.base_linear_forward y).2.2,
            (w.base_linear_forward y).2.1) := by
  constructor
  · have h1 : dropoutRun la.dropout_p keepPre x = x := by
      rw [hp]; exact dropoutRun_zero keepPre x hpre
    have h2 : ∀ v : QVec nOut, dropoutRun la.dropout_p keepPost v = v := by
      intro v; rw [hp]; exact dropoutRun_zero keepPost v hpost
    cases hdp : la.dropout_position <;>
      · simp only [LinearAdapter.forward, hdp, h1, h2, if_true, if_false,
          reduceCtorEq, ite_true, ite_false, hscale]
        funext j
        simp [mul_comm]
  · rfl

/-- C1 witness: the theorem instantiated at the sample adapter, sample
wrapper, and concrete inputs. -/
theorem C1_witness :
    laSample.forward (fun _ => true) (fun _ => true) (fun _ => 2)
        = laSample.orig_linear.forward (fun _ => 2)
          + ((32 : ℚ) / ((8 : ℕ) : ℚ)) •
              Matrix.vecMul (Matrix.vecMul (fun _ => 2) laSample.lora_a.val)
                laSample.lora_b.val
      ∧ apSample.forward (fun _ => 3)
        = ((apSample.base_linear_forward (fun _ => 3)).1
            + apSample.adapter (apSample.base_linear_forward (fun _ => 3)).2.2,
            (apSample.base_linear_forward (fun _ => 3)).2.1) :=
  C1_adapter_forward laSample 32 8 (fun _ => true) (fun _ => true) (fun _ => 2)
    apSample (fun _ => 3) rfl rfl (fun _ => rfl) (fun _ => rfl)

/-- C2: LoRA merge folds the adapter into the base weights.  For an
AdapterParallelAdd with base weight W, in-projection weight A and
out-projection weight B, LoRAMerge.transform replaces the wrapped weight by
W + (alpha/dim) * (B @ A) and keeps the adapter; every module that is not an
AdapterParallelAdd is returned unchanged. -/
theorem C2_lora_merge {nIn nOut d : ℕ} (s : LoRAMerge.APAddState nIn nOut d)
    (mm : LoRAMerge.MModule) (h : LoRAMerge.isAdapterParallelAdd mm = false) :
    LoRAMerge.transform (LoRAMerge.MModule.adapterParallelAdd nIn nOut d s)
        = LoRAMerge.MModule.adapterParallelAdd nIn nOut d
            { to_wrap :=
                { weight := s.to_wrap.weight
                    + (s.adapter.alpha / (s.adapter.dim : ℚ)) •
                        (s.adapter.linear_out.weight * s.adapter.linear_in.weight) }
              adapter := s.adapter }
      ∧ LoRAMerge.transform mm = mm := by
  constructor
  · simp only [LoRAMerge.transform, Matrix.smul_mul]
  · cases mm with
    | adapterParallelAdd nIn nOut d s => simp [LoRAMerge.isAdapterParallelAdd] at h
    | nonAdapter t => rfl

/-- C2 witness: the theorem instantiated at the sample adapter state and a
non-adapter module. -/
theorem C2_witness :
    LoRAMerge.transform (LoRAMerge.MModule.adapterParallelAdd 1 1 1 apAddSample)
        = LoRAMerge.MModule.adapterParallelAdd 1 1 1
            { to_wrap :=
                { weight := apAddSample.to_wrap.weight
                    + (apAddSample.adapter.alpha / (apAddSample.adapter.dim : ℚ)) •
                        (apAddSample.adapter.linear_out.weight *
                          apAddSample.adapter.linear_in.weight) }
              adapter := apAddSample.adapter }
      ∧ LoRAMerge.transform (LoRAMerge.MModule.nonAdapter 7)
        = LoRAMerge.MModule.nonAdapter 7 :=
  C2_lora_merge apAddSample (LoRAMerge.MModule.nonAdapter 7) rfl

/-- C3: the FLOPs estimate for the GPT3 family is the closed-form value
(24 gbs s h^2 + 4 gbs s^2 h) * (3 layers) + 6 gbs s h V with V the gpt3 entry
of the vocab-size map. -/
theorem C3_gpt3_flops (c : FLOPsMeasurementCallback) :
    c.gpt3 = (24 * c.gbs * c.enc_seq_len * c.hs ^ 2
        + 4 * c.gbs * c.enc_seq_len ^ 2 * c.hs) * (3 * c.layers)
      + 6 * c.gbs * c.enc_seq_len * c.hs * c.vocab_map "gpt3" := by
  simp only [FLOPsMeasurementCallback.gpt3]
  ring

/-- C6: the llama2 and llama3 estimators evaluate the same closed-form
expression, differing only in the vocab-size constant, and agree whenever the
two vocab sizes agree. -/
theorem C6_llama_equiv (c : FLOPsMeasurementCallback) :
    c.llama2 = llamaSpecFormula c (c.vocab_map "llama2")
      ∧ c.llama3 = llamaSpecFormula c (c.vocab_map "llama3")
      ∧ (c.vocab_map "llama2" = c.vocab_map "llama3" → c.llama2 = c.llama3) := by
  refine ⟨rfl, rfl, fun h => ?_⟩
  simp only [FLOPsMeasurementCallback.llama2, FLOPsMeasurementCallback.llama3, h]

/-- C6 witness: the theorem instantiated at the sample callback state, whose
vocab map is constant, so the two estimates agree. -/
theorem C6_witness :
    flopsSample.llama2 = llamaSpecFormula flopsSample (flopsSample.vocab_map "llama2")
      ∧ flopsSample.llama2 = flopsSample.llama3 :=
  ⟨(C6_llama_equiv flopsSample).1, (C6_llama_equiv flopsSample).2.2 rfl⟩

/-- C7: constructing a LinearAdapter or a LinearAdapterForQKV over an
nn.Linear keeps the original layer's weight and bias values and turns their
requires_grad off, while the newly added low-rank parameters are created
trainable. -/
theorem C7_construction_freezes_base {nIn nOut : ℕ} (orig : Linear nIn nOut)
    (dim : ℕ) (alpha dropout : ℚ) (pos : DropPos) (method : String)
    (aDraw : QMat nIn dim) (aDraws : Fin 3 → QMat dim nIn)
    (bDraws : Fin 3 → QMat (nOut / 3) dim) :
    ((LinearAdapter.init orig dim alpha dropout pos method aDraw).orig_linear.weight.val
        = orig.weight.val
      ∧ (LinearAdapter.init orig dim alpha dropout pos method aDraw).orig_linear.weight.requires_grad
        = false
      ∧ (LinearAdapter.init orig dim alpha dropout pos method aDraw).orig_linear.bias.map Param.val
        = orig.bias.map Param.val
      ∧ (LinearAdapter.init orig dim alpha dropout pos method aDraw).orig_linear.bias.map Param.requires_grad
        = orig.bias.map (fun _ => false)
      ∧ (LinearAdapter.init orig dim alpha dropout pos method aDraw).lora_a.requires_grad = true
      ∧ (LinearAdapter.init orig dim alpha dropout pos method aDraw).lora_b.requires_grad = true)
    ∧ ((LinearAdapterForQKV.init orig dim alpha dropout pos method aDraws bDraws).orig_linear.weight.val
        = orig.weight.val
      ∧ (LinearAdapterForQKV.init orig dim alpha dropout pos method aDraws bDraws).orig_linear.weight.requires_grad
        = false
      ∧ (LinearAdapterForQKV.init orig dim alpha dropout pos method aDraws bDraws).orig_linear.bias.map Param.val
        = orig.bias.map Param.val
      ∧ (LinearAdapterForQKV.init orig dim alpha dropout pos method aDraws bDraws).orig_linear.bias.map Param.requires_grad
        = orig.bias.map (fun _ => false)
      ∧ (∀ t : Fin 3,
          ((LinearAdapterForQKV.init orig dim alpha dropout pos method aDraws bDraws).lora_a t).weight.requires_grad
            = true)
      ∧ (∀ t : Fin 3,
          ((LinearAdapterForQKV.init orig dim alpha dropout pos method aDraws bDraws).lora_b t).weight.requires_grad
            = true)) := by
  obtain ⟨w, b⟩ := orig
  refine ⟨⟨rfl, rfl, ?_, ?_, rfl, rfl⟩, rfl, rfl, ?_, ?_, fun t => rfl, fun t => rfl⟩ <;>
    cases b <;> rfl

/-- C7 witness: the theorem instantiated at the sample linear layer and
concrete constructor arguments. -/
theorem C7_witness :
    ((LinearAdapter.init linSample 8 32 0 DropPos.post "xavier"
          (Matrix.of fun _ _ => 1)).orig_linear.weight.val
        = linSample.weight.val
      ∧ (LinearAdapter.init linSample 8 32 0 DropPos.post "xavier"
          (Matrix.of fun _ _ => 1)).orig_linear.weight.requires_grad = false
      ∧ (LinearAdapter.init linSample 8 32 0 DropPos.post "xavier"
          (Matrix.of fun _ _ => 1)).orig_linear.bias.map Param.val
        = linSample.bias.map Param.val
      ∧ (LinearAdapter.init linSample 8 32 0 DropPos.post "xavier"
          (Matrix.of fun _ _ => 1)).orig_linear.bias.map Param.requires_grad
        = linSample.bias.map (fun _ => false)
      ∧ (LinearAdapter.init linSample 8 32 0 DropPos.post "xavier"
          (Matrix.of fun _ _ => 1)).lora_a.requires_grad = true
      ∧ (LinearAdapter.init linSample 8 32 0 DropPos.post "xavier"
          (Matrix.of fun _ _ => 1)).lora_b.requires_grad = true)
    ∧ ((LinearAdapterForQKV.init linSample 8 32 0 DropPos.post "xavier"
          (fun _ => Matrix.of fun _ _ => 1)
          (fun _ => Matrix.of fun _ _ => 1)).orig_linear.weight.val
        = linSample.weight.val
      ∧ (LinearAdapterForQKV.init linSample 8 32 0 DropPos.post "xavier"
          (fun _ => Matrix.of fun _ _ => 1)
          (fun _ => Matrix.of fun _ _ => 1)).orig_linear.weight.requires_grad = false
      ∧ (LinearAdapterForQKV.init linSample 8 32 0 DropPos.post "xavier"
          (fun _ => Matrix.of fun _ _ => 1)
          (fun _ => Matrix.of fun _ _ => 1)).orig_linear.bias.map Param.val
        = linSample.bias.map Param.val
      ∧ (LinearAdapterForQKV.init linSample 8 32 0 DropPos.post "xavier"
          (fun _ => Matrix.of fun _ _ => 1)
          (fun _ => Matrix.of fun _ _ => 1)).orig_linear.bias.map Param.requires_grad
        = linSample.bias.map (fun _ => false)
      ∧ (∀ t : Fin 3,
          ((LinearAdapterForQKV.init linSample 8 32 0 DropPos.post "xavier"
              (fun _ => Matrix.of fun _ _ => 1)
              (fun _ => Matrix.of fun _ _ => 1)).lora_a t).weight.requires_grad = true)
      ∧ (∀ t : Fin 3,
          ((LinearAdapterForQKV.init linSample 8 32 0 DropPos.post "xavier"
              (fun _ => Matrix.of fun _ _ => 1)
              (fun _ => Matrix.of fun _ _ => 1)).lora_b t).weight.requires_grad = true)) :=
  C7_construction_freezes_base linSample 8 32 0 DropPos.post "xavier"
    (Matrix.of fun _ _ => 1) (fun _ => Matrix.of fun _ _ => 1)
    (fun _ => Matrix.of fun _ _ => 1)

/-- C4: LoRA injection is driven purely by name pattern-matching: when the
name is not listed in target_modules and no wildcard pattern matches the full
dotted name, LoRA.transform returns the module itself, for every module. -/
theorem C4_transform_frame (cfg : LoRA) (tpSize : ℕ) (draw : ℕ → ℕ → ℕ → ℚ)
    (m : Module) (name pfx : Option String)
    (h1 : ∀ s, name = some s → cfg.target_modules.contains s = false)
    (h2 : ∀ pattern ∈ cfg.target_modules,
        wildcard_match pattern (full_name name pfx) = false) :
    LoRA.transform cfg tpSize draw m name pfx = Except.ok m := by
  have hany : (cfg.target_modules.any fun pattern =>
      wildcard_match pattern (full_name name pfx)) = false :=
    List.any_eq_false.mpr fun pat hp => by simp [h2 pat hp]
  have ht : isTargeted cfg.target_modules name pfx = false := by
    cases hn : name with
    | none =>
        rw [hn] at hany
        simp [isTargeted, hany]
    | some s =>
        rw [hn] at hany
        have hc : s ∉ cfg.target_modules := by
          intro hmem
          have hcon : cfg.target_modules.contains s = true := List.elem_iff.mpr hmem
          rw [h1 s hn] at hcon
          exact Bool.false_ne_true hcon
        simp [isTargeted, hany, hc]
  simp [LoRA.transform, ht]

/-- C4 witness: the theorem instantiated at the default configuration and a
non-matching name. -/
theorem C4_witness :
    LoRA.transform loraSample 1 (fun _ _ _ => 0) (Module.other 0)
        (some "word_embeddings") (some "model") = Except.ok (Module.other 0) :=
  C4_transform_frame loraSample 1 (fun _ _ _ => 0) (Module.other 0)
    (some "word_embeddings") (some "model")
    (fun s hs => by injection hs with h; subst h; decide)
    (by decide)

/-- C5: a module whose name matches target_modules but whose type is none of
the six recognized linear layer types makes LoRA.transform raise
NotImplementedError instead of returning a wrapped module. -/
theorem C5_unrecognized_raises (cfg : LoRA) (tpSize : ℕ) (draw : ℕ → ℕ → ℕ → ℚ)
    (tag : ℕ) (name pfx : Option String)
    (h : isTargeted cfg.target_modules name pfx = true) :
    LoRA.transform cfg tpSize draw (Module.other tag) name pfx
      = Except.error "NotImplementedError: Layer type is unrecognized for LoRA" := by
  simp [LoRA.transform, h]

/-- C5 witness: the theorem instantiated at the default configuration and a
matching name. -/
theorem C5_witness :
    LoRA.transform loraSample 1 (fun _ _ _ => 0) (Module.other 3)
        (some "linear_qkv") none
      = Except.error "NotImplementedError: Layer type is unrecognized for LoRA" :=
  C5_unrecognized_raises loraSample 1 (fun _ _ _ => 0) 3 (some "linear_qkv") none
    (by decide)

/-- C3 witness: the theorem instantiated at the sample callback state. -/
theorem C3_witness :
    flopsSample.gpt3 = (24 * flopsSample.gbs * flopsSample.enc_seq_len * flopsSample.hs ^ 2
        + 4 * flopsSample.gbs * flopsSample.enc_seq_len ^ 2 * flopsSample.hs)
          * (3 * flopsSample.layers)
      + 6 * flopsSample.gbs * flopsSample.enc_seq_len * flopsSample.hs
          * flopsSample.vocab_map "gpt3" :=
  C3_gpt3_flops flopsSample

namespace FLOPsMeasurementCallback

/-- Looking up a family key in the flops dictionary gives that family's
formula. -/
theorem lookup_model_flops_of_mem (c : FLOPsMeasurementCallback) (k : String)
    (hk : k ∈ familyKeys) :
    (model_flops_map c).lookup k = some (familyFlops c k) := by
  simp only [familyKeys, List.mem_cons, List.not_mem_nil, or_false] at hk
  rcases hk with rfl | rfl | rfl | rfl | rfl | rfl <;> rfl

/-- Looking up a non-key in the flops dictionary fails. -/
theorem lookup_model_flops_of_not_mem (c : FLOPsMeasurementCallback) (s : String)
    (hs : s ∉ familyKeys) :
    (model_flops_map c).lookup s = none := by
  simp only [familyKeys, List.mem_cons, List.not_mem_nil, or_false, not_or] at hs
  obtain ⟨h1, h2, h3, h4, h5, h6⟩ := hs
  have e1 : (s == "gpt3") = false := beq_eq_false_iff_ne.mpr h1
  have e2 : (s == "llama2") = false := beq_eq_false_iff_ne.mpr h2
  have e3 : (s == "llama3") = false := beq_eq_false_iff_ne.mpr h3
  have e4 : (s == "nemotron") = false := beq_eq_false_iff_ne.mpr h4
  have e5 : (s == "mixtral") = false := beq_eq_false_iff_ne.mpr h5
  have e6 : (s == "bert") = false := beq_eq_false_iff_ne.mpr h6
  simp [model_flops_map, List.lookup, e1, e2, e3, e4, e5, e6]

/-- With a None model name, eval_model_flops raises KeyError. -/
theorem eval_model_flops_of_none (c : FLOPsMeasurementCallback)
    (h : c.model = none) :
    c.eval_model_flops
      = Except.error "KeyError: Failed to extract valid model name from or missing FLOPs calculations" := by
  simp [eval_model_flops, h]

/-- With a model name that no family key occurs in, eval_model_flops raises
KeyError. -/
theorem eval_model_flops_of_no_match (c : FLOPsMeasurementCallback) (s : String)
    (hm : c.model = some s)
    (hF : familyKeys.filter (fun k => decide (k.data <:+: s.data)) = []) :
    c.eval_model_flops
      = Except.error "KeyError: Failed to extract valid model name from or missing FLOPs calculations" := by
  have hs : s ∉ familyKeys := by
    intro hmem
    have hin : s ∈ familyKeys.filter (fun k => decide (k.data <:+: s.data)) :=
      List.mem_filter.mpr ⟨hmem, by simp [List.infix_refl]⟩
    rw [hF] at hin
    exact absurd hin (List.not_mem_nil s)
  simp [eval_model_flops, hm, hF, lookup_model_flops_of_not_mem c s hs]

/-- With a model name that some family key occurs in, eval_model_flops
dispatches to the first matching key. -/
theorem eval_model_flops_of_first_match (c : FLOPsMeasurementCallback)
    (s k : String) (rest : List String) (hm : c.model = some s)
    (hF : familyKeys.filter (fun j => decide (j.data <:+: s.data)) = k :: rest) :
    c.eval_model_flops = Except.ok (familyFlops c k, familyFlops c k / c.num_devices) := by
  have hk : k ∈ familyKeys := by
    have hkin : k ∈ familyKeys.filter (fun j => decide (j.data <:+: s.data)) := by
      rw [hF]; exact List.mem_cons_self k rest
    exact (List.mem_filter.mp hkin).1
  simp [eval_model_flops, hm, hF, lookup_model_flops_of_mem c k hk]

end FLOPsMeasurementCallback

/-- C10: eval_model_flops raises KeyError exactly when the model name is None
or contains none of the family keys as a substring; otherwise it dispatches to
the first matching family's formula and returns
(total_flops, total_flops / num_devices). -/
theorem C10_eval_model_flops_dispatch (c : FLOPsMeasurementCallback) :
    (FLOPsMeasurementCallback.raisesError c.eval_model_flops = true ↔
        (c.model = none ∨ ∃ s, c.model = some s ∧
            ∀ k ∈ FLOPsMeasurementCallback.familyKeys, ¬ k.data <:+: s.data))
      ∧ (∀ s k rest, c.model = some s →
          FLOPsMeasurementCallback.familyKeys.filter
              (fun j => decide (j.data <:+: s.data)) = k :: rest →
          c.eval_model_flops
            = Except.ok (FLOPsMeasurementCallback.familyFlops c k,
                FLOPsMeasurementCallback.familyFlops c k / c.num_devices)) := by
  constructor
  · cases hm : c.model with
    | none =>
        rw [FLOPsMeasurementCallback.eval_model_flops_of_none c hm]
        simp [FLOPsMeasurementCallback.raisesError]
    | some s =>
        cases hF : FLOPsMeasurementCallback.familyKeys.filter
            (fun k => decide (k.data <:+: s.data)) with
        | nil =>
            rw [FLOPsMeasurementCallback.eval_model_flops_of_no_match c s hm hF]
            simp only [FLOPsMeasurementCallback.raisesError, true_iff]
            refine Or.inr ⟨s, rfl, fun k hk hinf => ?_⟩
            have : k ∈ FLOPsMeasurementCallback.familyKeys.filter
                (fun j => decide (j.data <:+: s.data)) :=
              List.mem_filter.mpr ⟨hk, by simp [hinf]⟩
            rw [hF] at this
            exact absurd this (List.not_mem_nil k)
        | cons k rest =>
            rw [FLOPsMeasurementCallback.eval_model_flops_of_first_match c s k rest hm hF]
            simp only [FLOPsMeasurementCallback.raisesError, Bool.false_eq_true,
              false_iff, not_or]
            refine ⟨by simp, ?_⟩
            rintro ⟨s2, hs2, hall⟩
            obtain rfl : s2 = s := (Option.some.inj hs2).symm
            have hkin : k ∈ FLOPsMeasurementCallback.familyKeys.filter
                (fun j => decide (j.data <:+: s2.data)) := by
              rw [hF]; exact List.mem_cons_self k rest
            have hkmem := List.mem_filter.mp hkin
            exact hall k hkmem.1 (by simpa using hkmem.2)
  · intro s k rest hm hF
    exact FLOPsMeasurementCallback.eval_model_flops_of_first_match c s k rest hm hF

/-- C10 witness: the theorem's dispatch part instantiated at the sample
callback state, whose model name contains gpt3. -/
theorem C10_witness :
    flopsSample.eval_model_flops
      = Except.ok (FLOPsMeasurementCallback.familyFlops flopsSample "gpt3",
          FLOPsMeasurementCallback.familyFlops flopsSample "gpt3"
            / flopsSample.num_devices) :=
  (C10_eval_model_flops_dispatch flopsSample).2 "train_gpt3_5b" "gpt3" [] rfl (by decide)

/-- C9: eval_tflops_per_sec_per_gpu averages only the second half of the
recorded step times: when eval_model_flops succeeds with
(total_flops, flops_per_gpu), flops_per_gpu is total_flops / num_devices, a
list t of step times gives flops_per_gpu / (1e12 * mean of t from index
len(t)//2 on), and a scalar argument behaves as its one-element list. -/
theorem C9_eval_tflops_half_mean (c : FLOPsMeasurementCallback) (tf fpg : ℚ)
    (h : c.eval_model_flops = Except.ok (tf, fpg)) :
    fpg = tf / c.num_devices
      ∧ (∀ l : List ℚ, l ≠ [] →
          c.eval_tflops_per_sec_per_gpu (FLOPsMeasurementCallback.StepTimeInput.list l)
            = Except.ok (fpg / ((1e12 : ℚ) *
                FLOPsMeasurementCallback.listMean (l.drop (l.length / 2)))))
      ∧ (∀ x : ℚ,
          c.eval_tflops_per_sec_per_gpu (FLOPsMeasurementCallback.StepTimeInput.scalar x)
            = Except.ok (fpg / ((1e12 : ℚ) * x))) := by
  refine ⟨?_, ?_, ?_⟩
  · simp only [FLOPsMeasurementCallback.eval_model_flops] at h
    split at h
    · exact absurd h (by simp)
    · split at h
      · exact absurd h (by simp)
      · have hp := Except.ok.inj h
        have h1 := congrArg Prod.fst hp
        have h2 := congrArg Prod.snd hp
        simp only at h1 h2
        rw [← h2, ← h1]
  · intro l hl
    simp [FLOPsMeasurementCallback.eval_tflops_per_sec_per_gpu, h]
  · intro x
    simp [FLOPsMeasurementCallback.eval_tflops_per_sec_per_gpu, h,
      FLOPsMeasurementCallback.listMean]

/-- C9 witness: the theorem instantiated at the sample callback state, a
two-element step-time list, and a scalar step time. -/
theorem C9_witness :
    (FLOPsMeasurementCallback.familyFlops flopsSample "gpt3" / flopsSample.num_devices
        = FLOPsMeasurementCallback.familyFlops flopsSample "gpt3" / flopsSample.num_devices)
      ∧ flopsSample.eval_tflops_per_sec_per_gpu
          (FLOPsMeasurementCallback.StepTimeInput.list [3, 5])
        = Except.ok ((FLOPsMeasurementCallback.familyFlops flopsSample "gpt3"
              / flopsSample.num_devices) / ((1e12 : ℚ) *
              FLOPsMeasurementCallback.listMean (([3, 5] : List ℚ).drop
                (([3, 5] : List ℚ).length / 2))))
      ∧ flopsSample.eval_tflops_per_sec_per_gpu
          (FLOPsMeasurementCallback.StepTimeInput.scalar 4)
        = Except.ok ((FLOPsMeasurementCallback.familyFlops flopsSample "gpt3"
              / flopsSample.num_devices) / ((1e12 : ℚ) * 4)) := by
  have h := C9_eval_tflops_half_mean flopsSample
    (FLOPsMeasurementCallback.familyFlops flopsSample "gpt3")
    (FLOPsMeasurementCallback.familyFlops flopsSample "gpt3" / flopsSample.num_devices)
    (FLOPsMeasurementCallback.eval_model_flops_of_first_match flopsSample
      "train_gpt3_5b" "gpt3" [] rfl (by decide))
  exact ⟨rfl, h.2.1 [3, 5] (by simp), h.2.2 4⟩

/-! ### Lemmas about the token matcher, for the is_expert_linear claim -/

/-- A string is one of its own star-reachable suffixes (the star consumed
nothing). -/
theorem self_mem_starTails (p : CharPat) (s : List Char) : s ∈ starTails p s := by
  cases s <;> simp [starTails]

/-- A match of the remaining tokens is a match of a starred token followed by
them (the star consumed nothing). -/
theorem tmatch_star_of_tmatch {p : CharPat} {ts : List RTok} {s : List Char}
    (h : tmatch ts s = true) : tmatch (RTok.star p :: ts) s = true := by
  simp only [tmatch, List.any_eq_true]
  exact ⟨s, self_mem_starTails p s, h⟩

/-- Star-reachable suffixes are preserved by prepending characters the starred
pattern matches. -/
theorem mem_starTails_append {p : CharPat} {xs s t : List Char}
    (hxs : ∀ c ∈ xs, cmatch p c = true) (ht : t ∈ starTails p s) :
    t ∈ starTails p (xs ++ s) := by
  induction xs with
  | nil => simpa using ht
  | cons x xs ih =>
      have hx : cmatch p x = true := hxs x (List.mem_cons_self x xs)
      have ih2 := ih fun c hc => hxs c (List.mem_cons_of_mem x hc)
      simp only [List.cons_append, starTails, hx, if_true]
      exact List.mem_cons_of_mem _ ih2

/-- A starred token absorbs any prefix of characters its pattern matches. -/
theorem tmatch_star_append {p : CharPat} {ts : List RTok} {xs s : List Char}
    (hxs : ∀ c ∈ xs, cmatch p c = true)
    (h : tmatch (RTok.star p :: ts) s = true) :
    tmatch (RTok.star p :: ts) (xs ++ s) = true := by
  simp only [tmatch, List.any_eq_true] at h ⊢
  obtain ⟨t, htmem, htm⟩ := h
  exact ⟨t, mem_starTails_append hxs htmem, htm⟩

/-- A single-character token followed by more tokens matches the corresponding
cons input. -/
theorem tmatch_one_cons {p : CharPat} {ts : List RTok} {c : Char} {s : List Char}
    (hc : cmatch p c = true) (h : tmatch ts s = true) :
    tmatch (RTok.one p :: ts) (c :: s) = true := by
  simp [tmatch, hc, h]

/-- The literal tokens of a string consume exactly that string from the
input. -/
theorem tmatch_litToks_append (str : String) (ts : List RTok) (s : List Char) :
    tmatch (litToks str ++ ts) (str.data ++ s) = tmatch ts s := by
  unfold litToks
  generalize str.data = l
  induction l with
  | nil => rfl
  | cons c l ih => simp [tmatch, cmatch, ih]

/-- Star-reachable suffixes are suffixes. -/
theorem starTails_isSuffix {p : CharPat} {s t : List Char}
    (h : t ∈ starTails p s) : t <:+ s := by
  induction s generalizing t with
  | nil =>
      simp only [starTails, List.mem_singleton] at h
      subst h
      exact List.suffix_refl []
  | cons c cs ih =>
      simp only [starTails] at h
      rcases List.mem_cons.mp h with h1 | h1
      · exact h1 ▸ List.suffix_refl _
      · by_cases hc : cmatch p c = true
        · rw [if_pos hc] at h1
          exact (ih h1).trans (List.suffix_cons c cs)
        · rw [if_neg hc] at h1
          exact absurd h1 (List.not_mem_nil t)

/-- A token list ending in a single-character token only matches inputs whose
last character matches that pattern. -/
theorem tmatch_last_one {p : CharPat} : ∀ (ts : List RTok) (s : List Char),
    tmatch (ts ++ [RTok.one p]) s = true →
    ∃ s1 a, s = s1 ++ [a] ∧ cmatch p a = true := by
  intro ts
  induction ts with
  | nil =>
      intro s h
      cases s with
      | nil => simp [tmatch] at h
      | cons a as =>
          simp only [List.nil_append, tmatch, Bool.and_eq_true,
            List.isEmpty_iff] at h
          obtain ⟨h1, rfl⟩ := h
          exact ⟨[], a, rfl, h1⟩
  | cons t ts ih =>
      intro s h
      cases t with
      | one q =>
          cases s with
          | nil => simp [tmatch] at h
          | cons a as =>
              rw [List.cons_append] at h
              simp only [tmatch, Bool.and_eq_true] at h
              obtain ⟨s1, b, rfl, hb⟩ := ih as h.2
              exact ⟨a :: s1, b, by simp, hb⟩
      | star q =>
          rw [List.cons_append] at h
          simp only [tmatch, List.any_eq_true] at h
          obtain ⟨u, humem, hum⟩ := h
          obtain ⟨s1, b, rfl, hb⟩ := ih u hum
          obtain ⟨v, hv⟩ := starTails_isSuffix humem
          refine ⟨v ++ s1, b, ?_, hb⟩
          rw [← hv, List.append_assoc]

/-- The expert-pattern tokens match every input made of a newline-free prefix,
the literal mlp.experts.local_experts, one non-newline character, a nonempty
digit block, the literal .linear_fc, and a final 1 or 2. -/
theorem expert_match_core (pre : List Char) (c : Char) (ds : List Char) (f : Char)
    (hpre : ∀ a ∈ pre, a ≠ '\n') (hc : c ≠ '\n') (hne : ds ≠ [])
    (hds : ∀ a ∈ ds, a ∈ digitChars) (hf : f = '1' ∨ f = '2') :
    tmatch expertToks
      (pre ++ ("mlp.experts.local_experts".data
        ++ (c :: (ds ++ (".linear_fc".data ++ [f]))))) = true := by
  obtain ⟨d0, ds1, rfl⟩ : ∃ d0 ds1, ds = d0 :: ds1 := by
    cases ds with
    | nil => exact absurd rfl hne
    | cons d0 ds1 => exact ⟨d0, ds1, rfl⟩
  have hdot : ∀ a ∈ pre, cmatch CharPat.dot a = true := fun a ha => by
    simp [cmatch, hpre a ha]
  have hsh : expertToks
      = RTok.star CharPat.dot ::
          (litToks "mlp.experts.local_experts"
            ++ (RTok.one CharPat.dot :: RTok.one (CharPat.cls digitChars) ::
                RTok.star (CharPat.cls digitChars) ::
                  (litToks ".linear_fc" ++ [RTok.one (CharPat.cls ['1', '2'])]))) := by
    simp [expertToks, List.append_assoc]
  rw [hsh]
  apply tmatch_star_append hdot
  apply tmatch_star_of_tmatch
  rw [tmatch_litToks_append]
  simp only [List.cons_append]
  apply tmatch_one_cons (by simp [cmatch, hc])
  apply tmatch_one_cons (by
    show cmatch (CharPat.cls digitChars) d0 = true
    simp [cmatch]
    exact hds d0 (List.mem_cons_self d0 ds1))
  apply tmatch_star_append (fun a ha => by
    show cmatch (CharPat.cls digitChars) a = true
    simp [cmatch]
    exact hds a (List.mem_cons_of_mem d0 ha))
  apply tmatch_star_of_tmatch
  rcases hf with rfl | rfl <;> decide

/-- C8 counterexample: a name that ends in mlp.experts.local_experts, a single
separator character (here a newline), digits, and .linear_fc1 — the exact
shape the claim says always matches — on which is_expert_linear returns
False, because the unescaped regex dot does not match a newline. -/
theorem C8_counterexample :
    ("mlp.experts.local_experts\n0.linear_fc1" : String).data
        = "mlp.experts.local_experts".data
          ++ ('\n' :: ("0".data ++ (".linear_fc".data ++ ['1'])))
      ∧ is_expert_linear "mlp.experts.local_experts\n0.linear_fc1" = false := by
  constructor
  · rfl
  · decide

/-- C8 (amended): is_expert_linear accepts every newline-free name ending in
mlp.experts.local_experts, one (non-newline) separator character, one or more
digits, and .linear_fc1 or .linear_fc2, and rejects every name ending in
linear_fc3. -/
theorem C8_is_expert_linear (pre ds u : String) (c f : Char) (nm nm3 : String)
    (hpre : ∀ a ∈ pre.data, a ≠ '\n') (hc : c ≠ '\n')
    (hne : ds.data ≠ []) (hds : ∀ a ∈ ds.data, a ∈ digitChars)
    (hf : f = '1' ∨ f = '2')
    (hnm : nm.data = pre.data ++ ("mlp.experts.local_experts".data
        ++ (c :: (ds.data ++ (".linear_fc".data ++ [f])))))
    (h3 : nm3.data = u.data ++ "linear_fc3".data) :
    is_expert_linear nm = true ∧ is_expert_linear nm3 = false := by
  constructor
  · unfold is_expert_linear pyMatchDollar
    rw [hnm, expert_match_core pre.data c ds.data f hpre hc hne hds hf]
    rfl
  · have h3' : nm3.data = (u.data ++ "linear_fc".data) ++ ['3'] := by
      rw [h3, show ("linear_fc3" : String).data = "linear_fc".data ++ ['3'] from rfl,
        List.append_assoc]
    have hlast : nm3.data.getLast? = some '3' := by
      rw [h3']
      exact List.getLast?_concat _
    have hshape : expertToks
        = (RTok.star CharPat.dot ::
            (litToks "mlp.experts.local_experts"
              ++ (RTok.one CharPat.dot :: RTok.one (CharPat.cls digitChars) ::
                  RTok.star (CharPat.cls digitChars) :: litToks ".linear_fc")))
          ++ [RTok.one (CharPat.cls ['1', '2'])] := by
      simp [expertToks, List.append_assoc]
    have hnm3 : tmatch expertToks nm3.data = false := by
      cases htm : tmatch expertToks nm3.data
      · rfl
      · exfalso
        rw [hshape] at htm
        obtain ⟨s1, a, hsa, ha⟩ := tmatch_last_one _ _ htm
        have h1 : nm3.data.getLast? = some a := by
          rw [hsa]
          exact List.getLast?_concat _
        rw [hlast] at h1
        obtain rfl : a = '3' := (Option.some.inj h1).symm
        exact absurd ha (by decide)
    unfold is_expert_linear pyMatchDollar
    rw [hnm3, hlast]
    simp

/-- C8 witness: the amended theorem instantiated at a concrete expert module
name (separator dot, digits 12, suffix linear_fc1) and a concrete linear_fc3
name. -/
theorem C8_witness :
    is_expert_linear "model.layers.0.mlp.experts.local_experts.12.linear_fc1" = true
      ∧ is_expert_linear "some.module.linear_fc3" = false :=
  C8_is_expert_linear "model.layers.0." "12" "some.module." '.' '1'
    "model.layers.0.mlp.experts.local_experts.12.linear_fc1"
    "some.module.linear_fc3"
    (by decide) (by decide) (by decide) (by decide) (Or.inl rfl)
    (by decide) (by decide)

end Nemo
